import Mathlib

/-!
Verification development for the fm-actions-container CLI (Go).

The embedding models, from the source under cmd/ and internal/cloudbees/:
  - the JSON value universe used for flag configuration payloads
    (Go map[string]interface{} and interface{} values),
  - the dual parse of the default-value override (encoding/json then
    literal-string fallback), cmd/set-flag-config.go lines 94 to 102,
  - the configuration merge (YAML base overlaid by per-field overrides),
    cmd/set-flag-config.go lines 76 to 119,
  - the variant defaulting of create-flag, lines 123 to 152 of its file,
  - the HTTP status acceptance of every client operation,
    internal/cloudbees/client.go,
  - name-to-ID resolution (GetApplicationByName and the in-command
    environment scan),
  - the three mutating commands (create-flag, set-flag-config,
    delete-flag) as functions from inputs and a server oracle to a
    result plus the list of network calls issued, in order.

External libraries (gopkg.in/yaml.v3, spf13/cobra flag parsing, the
network stack) are modelled by their outcomes: a YAML input is either
absent, parsed to a document, or malformed; a server oracle supplies the
response of each remote endpoint.
-/

/-- JSON-compatible values, the model of a Go interface{} decoded by
encoding/json. Go decodes numbers into float64; every number appearing
in the specification and claims is integral, so numbers are modelled as
integers, and the parser below accepts integer literals only. -/
inductive JsonVal where
  | null : JsonVal
  | bool (b : Bool) : JsonVal
  | num (n : Int) : JsonVal
  | str (s : String) : JsonVal
  | arr (items : List JsonVal) : JsonVal
  | obj (fields : List (String × JsonVal)) : JsonVal

/-- Whitespace skipping of the JSON parser. -/
def skipWs : List Char → List Char
  | c :: cs => if c = ' ' ∨ c = '\t' ∨ c = '\n' ∨ c = '\r' then skipWs cs else c :: cs
  | [] => []

/-- Longest leading run of decimal digits. -/
def takeDigits : List Char → List Char × List Char
  | c :: cs =>
    if c.isDigit then
      let p := takeDigits cs
      (c :: p.1, p.2)
    else ([], c :: cs)
  | [] => ([], [])

/-- Value of a digit run. -/
def digitsToNat (ds : List Char) : Nat :=
  ds.foldl (fun acc c => acc * 10 + (c.toNat - 48)) 0

/-- JSON string escape sequences (the \u form of Go is not needed by any
claim and is not modelled). -/
def escChar (c : Char) : Option Char :=
  if c = 'n' then some '\n'
  else if c = 't' then some '\t'
  else if c = 'r' then some '\r'
  else if c = '"' ∨ c = '\\' ∨ c = '/' then some c
  else none

/-- Characters of a JSON string literal after the opening quote; returns
the decoded characters and the input after the closing quote. -/
def parseStrChars : List Char → Option (List Char × List Char)
  | [] => none
  | '"' :: cs => some ([], cs)
  | '\\' :: c :: cs =>
    match escChar c, parseStrChars cs with
    | some e, some (s, r) => some (e :: s, r)
    | _, _ => none
  | c :: cs =>
    if c = '\\' then none
    else
      match parseStrChars cs with
      | some (s, r) => some (c :: s, r)
      | none => none

mutual

/-- Fuelled recursive-descent JSON value parser, the model of Go
encoding/json Unmarshal into interface{} (restricted to integer
numbers). Returns the value and the unconsumed input. -/
def parseVal : Nat → List Char → Option (JsonVal × List Char)
  | 0, _ => none
  | fuel + 1, cs =>
    match skipWs cs with
    | 'n' :: 'u' :: 'l' :: 'l' :: rest => some (.null, rest)
    | 't' :: 'r' :: 'u' :: 'e' :: rest => some (.bool true, rest)
    | 'f' :: 'a' :: 'l' :: 's' :: 'e' :: rest => some (.bool false, rest)
    | '"' :: rest =>
      match parseStrChars rest with
      | some (s, r) => some (.str (String.mk s), r)
      | none => none
    | '-' :: rest =>
      match takeDigits rest with
      | ([], _) => none
      | (ds, r) => some (.num (-(digitsToNat ds : Int)), r)
    | '[' :: rest =>
      match skipWs rest with
      | ']' :: r => some (.arr [], r)
      | _ =>
        match parseArrItems fuel rest with
        | some (vs, r) => some (.arr vs, r)
        | none => none
    | '{' :: rest =>
      match skipWs rest with
      | '}' :: r => some (.obj [], r)
      | _ =>
        match parseObjItems fuel rest with
        | some (fs, r) => some (.obj fs, r)
        | none => none
    | c :: rest =>
      if c.isDigit then
        match takeDigits (c :: rest) with
        | (ds, r) => some (.num (digitsToNat ds : Int), r)
      else none
    | [] => none

/-- Comma-separated JSON array items up to the closing bracket. -/
def parseArrItems : Nat → List Char → Option (List JsonVal × List Char)
  | 0, _ => none
  | fuel + 1, cs =>
    match parseVal fuel cs with
    | none => none
    | some (v, r) =>
      match skipWs r with
      | ',' :: r2 =>
        match parseArrItems fuel r2 with
        | some (vs, r3) => some (v :: vs, r3)
        | none => none
      | ']' :: r2 => some ([v], r2)
      | _ => none

/-- Comma-separated JSON object members up to the closing brace. -/
def parseObjItems : Nat → List Char → Option (List (String × JsonVal) × List Char)
  | 0, _ => none
  | fuel + 1, cs =>
    match skipWs cs with
    | '"' :: rest =>
      match parseStrChars rest with
      | none => none
      | some (k, r) =>
        match skipWs r with
        | ':' :: r1 =>
          match parseVal fuel r1 with
          | none => none
          | some (v, r2) =>
            match skipWs r2 with
            | ',' :: r3 =>
              match parseObjItems fuel r3 with
              | some (fs, r4) => some ((String.mk k, v) :: fs, r4)
              | none => none
            | '}' :: r3 => some ([(String.mk k, v)], r3)
            | _ => none
        | _ => none
    | _ => none

end

/-- Top-level JSON parse: the whole input, up to trailing whitespace,
must be one value, as Go json.Unmarshal requires. -/
def jsonParse (s : String) : Option JsonVal :=
  match parseVal (s.length + 1) s.data with
  | some (v, rest) => if skipWs rest = [] then some v else none
  | none => none

/-- Go strconv.ParseBool: the exact accepted spellings. -/
def parseGoBool (s : String) : Option Bool :=
  if s = "1" ∨ s = "t" ∨ s = "T" ∨ s = "TRUE" ∨ s = "true" ∨ s = "True" then some true
  else if s = "0" ∨ s = "f" ∨ s = "F" ∨ s = "FALSE" ∨ s = "false" ∨ s = "False" then some false
  else none

/-- The configuration mapping built by set-flag-config: the model of the
Go map[string]interface{} named configChanges, as an association list
with unique keys. -/
abbrev ConfigMap := List (String × JsonVal)

/-- Map assignment m[k] = v: replace the entry of key k when present,
append otherwise. -/
def mapInsert : ConfigMap → String → JsonVal → ConfigMap
  | [], k, v => [(k, v)]
  | (k0, v0) :: rest, k, v =>
    if k0 = k then (k, v) :: rest
    else (k0, v0) :: mapInsert rest k v

/-- Map lookup m[k]. -/
def mapGet (m : ConfigMap) (k : String) : Option JsonVal :=
  match m with
  | [] => none
  | (k0, v0) :: rest => if k0 = k then some v0 else mapGet rest k

namespace Cloudbees

/-- Application, internal/cloudbees/client.go. Fields irrelevant to the
claims default to zero values for convenient construction. -/
structure Application where
  id : String
  name : String
  description : String := ""
  endpointId : String := ""
  repositoryUrl : String := ""
  defaultBranch : String := ""
  organizationId : String := ""
  serviceType : String := ""
  linkedComponentIds : List String := []
  linkedEnvironmentIds : List String := []

/-- Environment, internal/cloudbees/client.go. -/
structure Environment where
  id : String
  name : String
  resourceId : String := ""
  isDisabled : Bool := false

/-- Feature flag, internal/cloudbees/client.go. -/
structure Flag where
  id : String
  name : String
  flagType : String := ""
  variants : List String := []
  description : String := ""
  isPermanent : Bool := false
  resourceId : String := ""
  cascUrl : String := ""

/-- CreateFlagRequest, internal/cloudbees/client.go. -/
structure CreateFlagRequest where
  name : String
  flagType : String
  variants : List String
  description : String
  isPermanent : Bool

/-- The API operations of the client, internal/cloudbees/client.go. -/
inductive ApiOp where
  | listEnvironments
  | getFlagByName
  | getFlagConfiguration
  | updateFlagConfiguration
  | setFlagConfiguration
  | listFlags
  | createFlag
  | deleteFlag
  | listApplications
  deriving DecidableEq

/-- The HTTP statuses each client operation accepts, transcribed from
the per-operation checks in internal/cloudbees/client.go: every
operation accepts 200 (http.StatusOK); CreateFlag also accepts 201
(http.StatusCreated); DeleteFlag also accepts 204
(http.StatusNoContent). -/
def acceptedStatus : ApiOp → Nat → Bool
  | .createFlag, s => s == 200 || s == 201
  | .deleteFlag, s => s == 200 || s == 204
  | _, s => s == 200

/-- A 2xx HTTP status. -/
def isStatus2xx (s : Nat) : Bool := 200 ≤ s && s < 300

/-- An HTTP response as the client sees it: status code and body text. -/
structure HttpResponse where
  statusCode : Nat
  body : String

/-- The error built on a rejected response: fmt.Errorf("API request
failed with status %d: %s", resp.StatusCode, string(body)) carries the
numeric status and the raw body text. -/
structure ApiError where
  status : Nat
  body : String
  deriving DecidableEq

/-- The shared response handling of every client operation: when the
status is accepted the body is handed to the JSON decoder for the
expected shape, otherwise the error carrying status and raw body is
returned. -/
def handleApiResponse (op : ApiOp) (resp : HttpResponse) : Except ApiError String :=
  if acceptedStatus op resp.statusCode then Except.ok resp.body
  else Except.error { status := resp.statusCode, body := resp.body }

/-- One network call of a command invocation, with the mutating calls
distinguished from the read-only resolution calls. -/
inductive NetCall where
  | listApplications
  | getFlagByName (appId flagName : String)
  | listEnvironments
  | createFlag (appId : String) (req : CreateFlagRequest)
  | setFlagConfiguration (appId flagId envId : String) (config : ConfigMap)
  | deleteFlag (appId flagId : String)

/-- Whether a call mutates remote state (POST, PUT or DELETE). -/
def NetCall.isMutating : NetCall → Bool
  | .createFlag _ _ => true
  | .setFlagConfiguration _ _ _ _ => true
  | .deleteFlag _ _ => true
  | _ => false

/-- A trace with no mutating network call. -/
def readOnlyTrace (t : List NetCall) : Prop := ∀ c ∈ t, c.isMutating = false

/-- Server oracle: the response the remote API would give to each
endpoint, already lifted through the client's error handling (a String
error carries the client-level message). -/
structure Server where
  listApplicationsResp : Except String (List Application)
  getFlagByNameResp : String → String → Except String Flag
  listEnvironmentsResp : Except String (List Environment)
  createFlagResp : Except String Flag
  setFlagConfigResp : Except String Unit
  deleteFlagResp : Except String Unit

/-- GetApplicationByName, internal/cloudbees/client.go lines 431 to 444:
list all applications, scan linearly for the first exact name match,
otherwise the not-found error naming the searched value. -/
def getApplicationByName (srv : Server) (name : String) : Except String Application :=
  match srv.listApplicationsResp with
  | Except.error e => Except.error e
  | Except.ok apps =>
    match apps.find? (fun a => a.name == name) with
    | some a => Except.ok a
    | none => Except.error ("application '" ++ name ++ "' not found")

/-- NewClient validation, internal/cloudbees/client.go lines 128 to
137: token and organization ID must be nonempty. -/
def newClientCheck (token orgId : String) : Except String Unit :=
  if token = "" then Except.error "token is required"
  else if orgId = "" then Except.error "organization ID is required"
  else Except.ok ()

/-- The persistent flags every command reads from the root command. -/
structure AuthInputs where
  token : String
  orgId : String
  applicationName : String

/-- The outcome of yaml.Unmarshal on the --config input: the flag was
absent, or the YAML parsed to a document, or it was malformed. The YAML
library is external to the repository and is modelled by its outcome. -/
inductive YamlInput where
  | empty
  | parsed (doc : ConfigMap)
  | malformed

/-- The outcome of the variants input of create-flag (lines 123 to 139
of its file): absent, or parsed by yaml.Unmarshal as a list (elements
rendered with %v), or not YAML and comma-split with each element
trimmed. -/
inductive VariantsInput where
  | empty
  | yamlList (items : List String)
  | plain (raw : String)

/-- ASCII lowercasing of one character, the relevant fragment of Go
strings.ToLower (flag types are ASCII; the Unicode tables of Go are not
modelled). -/
def charToLower (c : Char) : Char :=
  if 65 ≤ c.toNat ∧ c.toNat ≤ 90 then Char.ofNat (c.toNat + 32) else c

/-- strings.ToLower on ASCII text. -/
def goToLower (s : String) : String := String.mk (s.data.map charToLower)

/-- Default variants by flag type, the switch on
strings.ToLower(flagType) in create-flag lines 140 to 152. -/
def defaultVariants (flagType : String) : List String :=
  match goToLower flagType with
  | "boolean" => ["true", "false"]
  | "string" => ["option1", "option2"]
  | "number" => ["0", "1"]
  | _ => ["true", "false"]

/-- The variants create-flag sends: the parsed input when given, the
comma-split fallback, or the per-type default when absent. -/
def resolveVariants (v : VariantsInput) (flagType : String) : List String :=
  match v with
  | .empty => defaultVariants flagType
  | .yamlList items => items
  | .plain raw => (raw.splitOn ",").map (fun s => s.trim)

/-- The default-value override dual parse, cmd/set-flag-config.go lines
94 to 102: try JSON, fall back to the literal text as a string. -/
def parseDefaultValue (s : String) : JsonVal :=
  match jsonParse s with
  | some v => v
  | none => JsonVal.str s

/-- The YAML base layer of the merge, cmd/set-flag-config.go lines 78
to 83. -/
def parseYamlBase : YamlInput → Except String ConfigMap
  | .empty => Except.ok []
  | .parsed doc => Except.ok doc
  | .malformed => Except.error "failed to parse config YAML"

/-- The enabled override, cmd/set-flag-config.go lines 86 to 92. -/
def applyEnabledOverride (m : ConfigMap) (enabled : String) : Except String ConfigMap :=
  if enabled = "" then Except.ok m
  else
    match parseGoBool enabled with
    | some b => Except.ok (mapInsert m "enabled" (JsonVal.bool b))
    | none => Except.error ("invalid enabled value '" ++ enabled ++ "', must be true or false")

/-- The default-value override, cmd/set-flag-config.go lines 94 to 102. -/
def applyDefaultValueOverride (m : ConfigMap) (dv : String) : ConfigMap :=
  if dv = "" then m else mapInsert m "defaultValue" (parseDefaultValue dv)

/-- The variants-enabled override, cmd/set-flag-config.go lines 104 to
110. -/
def applyVariantsEnabledOverride (m : ConfigMap) (ve : String) : Except String ConfigMap :=
  if ve = "" then Except.ok m
  else
    match parseGoBool ve with
    | some b => Except.ok (mapInsert m "variantsEnabled" (JsonVal.bool b))
    | none => Except.error ("invalid variants-enabled value '" ++ ve ++ "', must be true or false")

/-- The stickiness-property override, cmd/set-flag-config.go lines 112
to 114. -/
def applyStickinessOverride (m : ConfigMap) (sp : String) : ConfigMap :=
  if sp = "" then m else mapInsert m "stickinessProperty" (JsonVal.str sp)

/-- The configuration merge of set-flag-config, lines 76 to 114: the
YAML document is the base, then each nonempty override replaces its key
(overrides win over the document layer). -/
def buildConfigChanges (cfg : YamlInput) (enabled dv ve sp : String) : Except String ConfigMap :=
  match parseYamlBase cfg with
  | Except.error e => Except.error e
  | Except.ok m0 =>
    match applyEnabledOverride m0 enabled with
    | Except.error e => Except.error e
    | Except.ok m1 =>
      match applyVariantsEnabledOverride (applyDefaultValueOverride m1 dv) ve with
      | Except.error e => Except.error e
      | Except.ok m3 => Except.ok (applyStickinessOverride m3 sp)

/-- Inputs of set-flag-config (cmd/set-flag-config.go lines 17 to 25
and the persistent flags). -/
structure SetFlagConfigInputs where
  auth : AuthInputs
  flagName : String
  environmentName : String
  enabled : String := ""
  defaultValue : String := ""
  variantsEnabled : String := ""
  stickinessProperty : String := ""
  config : YamlInput := YamlInput.empty
  dryRun : Bool := false

/-- What set-flag-config reports on success: the dry-run preview of the
would-be change, or the applied update with the resolved identifiers. -/
inductive SetFlagConfigResult where
  | dryRunPreview (flagName environmentName : String) (changes : ConfigMap)
  | applied (flagId flagName appId appName envId envName : String) (changes : ConfigMap)

/-- The set-flag-config command, cmd/set-flag-config.go: input
validation, client creation, application then flag then environment
resolution, the configuration merge, the empty-merge check, the
dry-run exit, and finally the mutating PUT. Returns the result and the
network calls issued, in order. -/
def setFlagConfigCmd (srv : Server) (inp : SetFlagConfigInputs) :
    Except String SetFlagConfigResult × List NetCall :=
  if inp.flagName = "" then (Except.error "flag-name is required", [])
  else if inp.environmentName = "" then (Except.error "environment-name is required", [])
  else
    match newClientCheck inp.auth.token inp.auth.orgId with
    | Except.error e => (Except.error ("failed to create CloudBees client: " ++ e), [])
    | Except.ok _ =>
      match getApplicationByName srv inp.auth.applicationName with
      | Except.error e =>
        (Except.error ("failed to get application '" ++ inp.auth.applicationName ++ "': " ++ e),
         [NetCall.listApplications])
      | Except.ok app =>
        match srv.getFlagByNameResp app.id inp.flagName with
        | Except.error e =>
          (Except.error ("failed to get flag '" ++ inp.flagName ++ "': " ++ e),
           [NetCall.listApplications, NetCall.getFlagByName app.id inp.flagName])
        | Except.ok flag =>
          match srv.listEnvironmentsResp with
          | Except.error e =>
            (Except.error ("failed to list environments: " ++ e),
             [NetCall.listApplications, NetCall.getFlagByName app.id inp.flagName,
              NetCall.listEnvironments])
          | Except.ok envs =>
            let resolved := [NetCall.listApplications,
              NetCall.getFlagByName app.id inp.flagName, NetCall.listEnvironments]
            let environmentID :=
              match envs.find? (fun e => e.name == inp.environmentName) with
              | some env => env.id
              | none => ""
            if environmentID = "" then
              (Except.error ("environment '" ++ inp.environmentName ++ "' not found"), resolved)
            else
              match buildConfigChanges inp.config inp.enabled inp.defaultValue
                  inp.variantsEnabled inp.stickinessProperty with
              | Except.error e => (Except.error e, resolved)
              | Except.ok changes =>
                if changes.isEmpty then
                  (Except.error "no configuration changes specified", resolved)
                else if inp.dryRun then
                  (Except.ok (SetFlagConfigResult.dryRunPreview inp.flagName
                    inp.environmentName changes), resolved)
                else
                  match srv.setFlagConfigResp with
                  | Except.error e =>
                    (Except.error ("failed to set flag configuration: " ++ e),
                     resolved ++ [NetCall.setFlagConfiguration app.id flag.id environmentID changes])
                  | Except.ok _ =>
                    (Except.ok (SetFlagConfigResult.applied flag.id flag.name app.id app.name
                      environmentID inp.environmentName changes),
                     resolved ++ [NetCall.setFlagConfiguration app.id flag.id environmentID changes])

/-- Inputs of create-flag. -/
structure CreateFlagInputs where
  auth : AuthInputs
  flagName : String
  flagType : String
  description : String := ""
  variants : VariantsInput := VariantsInput.empty
  isPermanent : Bool := false
  dryRun : Bool := false

/-- What create-flag reports on success. -/
inductive CreateFlagResult where
  | dryRunPreview (flagName flagType description : String) (variants : List String)
      (isPermanent : Bool)
  | created (flag : Flag)

/-- The create-flag command: input validation, variant computation, the
dry-run exit (before client creation and before any resolution), then
client creation, application resolution and the mutating POST. -/
def createFlagCmd (srv : Server) (inp : CreateFlagInputs) :
    Except String CreateFlagResult × List NetCall :=
  if inp.flagName = "" then (Except.error "flag-name is required", [])
  else if inp.flagType = "" then (Except.error "flag-type is required", [])
  else
    let variants := resolveVariants inp.variants inp.flagType
    if inp.dryRun then
      (Except.ok (CreateFlagResult.dryRunPreview inp.flagName inp.flagType
        inp.description variants inp.isPermanent), [])
    else
      match newClientCheck inp.auth.token inp.auth.orgId with
      | Except.error e => (Except.error ("failed to create CloudBees client: " ++ e), [])
      | Except.ok _ =>
        match getApplicationByName srv inp.auth.applicationName with
        | Except.error e =>
          (Except.error ("failed to get application '" ++ inp.auth.applicationName ++ "': " ++ e),
           [NetCall.listApplications])
        | Except.ok app =>
          let req : CreateFlagRequest :=
            { name := inp.flagName, flagType := inp.flagType, variants := variants,
              description := inp.description, isPermanent := inp.isPermanent }
          match srv.createFlagResp with
          | Except.error e =>
            (Except.error ("failed to create flag: " ++ e),
             [NetCall.listApplications, NetCall.createFlag app.id req])
          | Except.ok flag =>
            (Except.ok (CreateFlagResult.created flag),
             [NetCall.listApplications, NetCall.createFlag app.id req])

/-- Inputs of delete-flag. -/
structure DeleteFlagInputs where
  auth : AuthInputs
  flagName : String
  dryRun : Bool := false
  confirm : Bool := false

/-- What delete-flag reports on success. -/
inductive DeleteFlagResult where
  | dryRunPreview (flag : Flag)
  | deleted (flagId flagName : String)

/-- The delete-flag command: input validation (flag name, then the
confirmation guard before any client creation or resolution), client
creation, application and flag resolution, the dry-run exit, and the
mutating DELETE. -/
def deleteFlagCmd (srv : Server) (inp : DeleteFlagInputs) :
    Except String DeleteFlagResult × List NetCall :=
  if inp.flagName = "" then (Except.error "flag-name is required", [])
  else if !inp.confirm && !inp.dryRun then
    (Except.error
      "this action will permanently delete the flag. Use --confirm to proceed or --dry-run to preview",
     [])
  else
    match newClientCheck inp.auth.token inp.auth.orgId with
    | Except.error e => (Except.error ("failed to create CloudBees client: " ++ e), [])
    | Except.ok _ =>
      match getApplicationByName srv inp.auth.applicationName with
      | Except.error e =>
        (Except.error ("failed to get application '" ++ inp.auth.applicationName ++ "': " ++ e),
         [NetCall.listApplications])
      | Except.ok app =>
        match srv.getFlagByNameResp app.id inp.flagName with
        | Except.error e =>
          (Except.error ("failed to find flag '" ++ inp.flagName ++ "': " ++ e),
           [NetCall.listApplications, NetCall.getFlagByName app.id inp.flagName])
        | Except.ok flag =>
          if inp.dryRun then
            (Except.ok (DeleteFlagResult.dryRunPreview flag),
             [NetCall.listApplications, NetCall.getFlagByName app.id inp.flagName])
          else
            match srv.deleteFlagResp with
            | Except.error e =>
              (Except.error ("failed to delete flag: " ++ e),
               [NetCall.listApplications, NetCall.getFlagByName app.id inp.flagName,
                NetCall.deleteFlag app.id flag.id])
            | Except.ok _ =>
              (Except.ok (DeleteFlagResult.deleted flag.id flag.name),
               [NetCall.listApplications, NetCall.getFlagByName app.id inp.flagName,
                NetCall.deleteFlag app.id flag.id])


/-- A concrete application for witnesses. -/
def sampleApp : Application := { id := "app-1", name := "my-app" }

/-- A concrete flag for witnesses. -/
def sampleFlag : Flag := { id := "flag-1", name := "my-flag", flagType := "Boolean" }

/-- A concrete environment for witnesses. -/
def sampleEnv : Environment := { id := "env-1", name := "production" }

/-- Concrete persistent-flag values for witnesses. -/
def sampleAuth : AuthInputs := { token := "tok", orgId := "org", applicationName := "my-app" }

/-- A server on which every lookup and every mutation succeeds. -/
def okServer : Server :=
  { listApplicationsResp := Except.ok [sampleApp]
    getFlagByNameResp := fun _ _ => Except.ok sampleFlag
    listEnvironmentsResp := Except.ok [sampleEnv]
    createFlagResp := Except.ok sampleFlag
    setFlagConfigResp := Except.ok ()
    deleteFlagResp := Except.ok () }

/-- A server whose organization has no applications, so that every
application resolution fails. -/
def noAppServer : Server :=
  { listApplicationsResp := Except.ok []
    getFlagByNameResp := fun _ _ => Except.error "API request failed with status 404: not found"
    listEnvironmentsResp := Except.ok []
    createFlagResp := Except.error "unreachable"
    setFlagConfigResp := Except.error "unreachable"
    deleteFlagResp := Except.error "unreachable" }

/-- A server with two applications of the same name, in mixed case. -/
def caseServer : Server :=
  { listApplicationsResp :=
      Except.ok [{ id := "a1", name := "My-App" }, { id := "a2", name := "My-App" }]
    getFlagByNameResp := fun _ _ => Except.error "unused"
    listEnvironmentsResp := Except.ok []
    createFlagResp := Except.error "unused"
    setFlagConfigResp := Except.error "unused"
    deleteFlagResp := Except.error "unused" }

/-- Looking up the key just assigned returns the assigned value. -/
theorem mapGet_mapInsert_self (m : ConfigMap) (k : String) (v : JsonVal) :
    mapGet (mapInsert m k v) k = some v := by
  induction m with
  | nil => simp [mapInsert, mapGet]
  | cons p rest ih =>
    obtain ⟨k0, v0⟩ := p
    by_cases h : k0 = k
    · simp [mapInsert, h, mapGet]
    · simp [mapInsert, h, mapGet, ih]

/-- Assignment leaves the other keys unchanged. -/
theorem mapGet_mapInsert_ne (m : ConfigMap) (k q : String) (v : JsonVal) (h : k ≠ q) :
    mapGet (mapInsert m k v) q = mapGet m q := by
  induction m with
  | nil => simp [mapInsert, mapGet, h]
  | cons p rest ih =>
    obtain ⟨k0, v0⟩ := p
    by_cases h0 : k0 = k
    · subst h0
      simp [mapInsert, mapGet, h]
    · simp [mapInsert, h0, mapGet, ih]

/-- The stickiness override touches no key other than its own. -/
theorem applyStickiness_get (m : ConfigMap) (sp k : String) (hk : k ≠ "stickinessProperty") :
    mapGet (applyStickinessOverride m sp) k = mapGet m k := by
  unfold applyStickinessOverride
  split
  · rfl
  · exact mapGet_mapInsert_ne m "stickinessProperty" k _ (Ne.symm hk)

/-- The variants-enabled override touches no key other than its own. -/
theorem applyVE_get (m m2 : ConfigMap) (ve k : String) (hk : k ≠ "variantsEnabled")
    (h : applyVariantsEnabledOverride m ve = Except.ok m2) :
    mapGet m2 k = mapGet m k := by
  unfold applyVariantsEnabledOverride at h
  split at h
  · cases h
    rfl
  · split at h
    · cases h
      exact mapGet_mapInsert_ne m "variantsEnabled" k _ (Ne.symm hk)
    · cases h

/-- The default-value override touches no key other than its own. -/
theorem applyDV_get (m : ConfigMap) (dv k : String) (hk : k ≠ "defaultValue") :
    mapGet (applyDefaultValueOverride m dv) k = mapGet m k := by
  unfold applyDefaultValueOverride
  split
  · rfl
  · exact mapGet_mapInsert_ne m "defaultValue" k _ (Ne.symm hk)

/-- The enabled override touches no key other than its own. -/
theorem applyEnabled_get (m m1 : ConfigMap) (enabled k : String) (hk : k ≠ "enabled")
    (h : applyEnabledOverride m enabled = Except.ok m1) :
    mapGet m1 k = mapGet m k := by
  unfold applyEnabledOverride at h
  split at h
  · cases h
    rfl
  · split at h
    · cases h
      exact mapGet_mapInsert_ne m "enabled" k _ (Ne.symm hk)
    · cases h

/-- When the enabled override parses, the merged map holds its value. -/
theorem applyEnabled_get_self (m m1 : ConfigMap) (enabled : String) (b : Bool)
    (hb : parseGoBool enabled = some b)
    (h : applyEnabledOverride m enabled = Except.ok m1) :
    mapGet m1 "enabled" = some (JsonVal.bool b) := by
  have hne : ¬enabled = "" := by
    intro he
    rw [he] at hb
    simp [parseGoBool] at hb
  unfold applyEnabledOverride at h
  rw [if_neg hne, hb] at h
  cases h
  exact mapGet_mapInsert_self m "enabled" (JsonVal.bool b)

/-- When the variants-enabled override parses, the merged map holds its
value. -/
theorem applyVE_get_self (m m2 : ConfigMap) (ve : String) (b : Bool)
    (hb : parseGoBool ve = some b)
    (h : applyVariantsEnabledOverride m ve = Except.ok m2) :
    mapGet m2 "variantsEnabled" = some (JsonVal.bool b) := by
  have hne : ¬ve = "" := by
    intro he
    rw [he] at hb
    simp [parseGoBool] at hb
  unfold applyVariantsEnabledOverride at h
  rw [if_neg hne, hb] at h
  cases h
  exact mapGet_mapInsert_self m "variantsEnabled" (JsonVal.bool b)

/-- A successful merge decomposes into its four override stages. -/
theorem buildConfigChanges_ok (cfg : YamlInput) (enabled dv ve sp : String) (m : ConfigMap)
    (hm : buildConfigChanges cfg enabled dv ve sp = Except.ok m) :
    ∃ m0 m1 m3, parseYamlBase cfg = Except.ok m0 ∧
      applyEnabledOverride m0 enabled = Except.ok m1 ∧
      applyVariantsEnabledOverride (applyDefaultValueOverride m1 dv) ve = Except.ok m3 ∧
      m = applyStickinessOverride m3 sp := by
  unfold buildConfigChanges at hm
  rcases h0 : parseYamlBase cfg with e | m0 <;> rw [h0] at hm <;> dsimp only at hm
  · cases hm
  · rcases h1 : applyEnabledOverride m0 enabled with e | m1 <;> rw [h1] at hm <;>
      dsimp only at hm
    · cases hm
    · rcases h2 : applyVariantsEnabledOverride (applyDefaultValueOverride m1 dv) ve with e | m3 <;>
        rw [h2] at hm <;> dsimp only at hm
      · cases hm
      · cases hm
        exact ⟨m0, m1, m3, rfl, h1, h2, rfl⟩

/-- find? on a split list returns the head of the tail when nothing in
the front matches. -/
theorem find?_first {α : Type} (p : α → Bool) (pre : List α) (a : α) (post : List α)
    (hpre : ∀ b ∈ pre, p b = false) (ha : p a = true) :
    (pre ++ a :: post).find? p = some a := by
  induction pre with
  | nil => simp [List.find?_cons, ha]
  | cons x xs ih =>
    have hx := hpre x (by simp)
    simp only [List.cons_append, List.find?_cons, hx]
    exact ih (fun b hb => hpre b (by simp [hb]))

/-- The empty trace is read-only. -/
theorem readOnly_nil : readOnlyTrace [] := by
  intro c hc
  cases hc

/-- The application-listing trace is read-only. -/
theorem readOnly_one : readOnlyTrace [NetCall.listApplications] := by
  intro c hc
  simp at hc
  subst hc
  rfl

/-- The application-and-flag resolution trace is read-only. -/
theorem readOnly_two (a f : String) :
    readOnlyTrace [NetCall.listApplications, NetCall.getFlagByName a f] := by
  intro c hc
  simp at hc
  rcases hc with rfl | rfl <;> rfl

/-- The full resolution trace of set-flag-config is read-only. -/
theorem readOnly_three (a f : String) :
    readOnlyTrace [NetCall.listApplications, NetCall.getFlagByName a f,
      NetCall.listEnvironments] := by
  intro c hc
  simp at hc
  rcases hc with rfl | rfl | rfl <;> rfl

/-- A create-flag dry run issues no network call at all: the dry-run
exit comes before client creation and before application resolution. -/
theorem createFlag_dryRun_trace (srv : Server) (inp : CreateFlagInputs)
    (h : inp.dryRun = true) : (createFlagCmd srv inp).2 = [] := by
  unfold createFlagCmd
  rw [h]
  by_cases h1 : inp.flagName = "" <;> by_cases h2 : inp.flagType = "" <;> simp [h1, h2]

/-- A set-flag-config dry run issues only read-only calls. -/
theorem setFlagConfig_dryRun_readOnly (srv : Server) (inp : SetFlagConfigInputs)
    (h : inp.dryRun = true) : readOnlyTrace (setFlagConfigCmd srv inp).2 := by
  unfold setFlagConfigCmd
  rw [h]
  repeat' first
    | exact readOnly_nil
    | exact readOnly_one
    | exact readOnly_two _ _
    | exact readOnly_three _ _
    | exact absurd rfl (by assumption)
    | dsimp only
    | split

/-- A delete-flag dry run issues only read-only calls. -/
theorem deleteFlag_dryRun_readOnly (srv : Server) (inp : DeleteFlagInputs)
    (h : inp.dryRun = true) : readOnlyTrace (deleteFlagCmd srv inp).2 := by
  unfold deleteFlagCmd
  rw [h]
  repeat' first
    | exact readOnly_nil
    | exact readOnly_one
    | exact readOnly_two _ _
    | exact absurd rfl (by assumption)
    | dsimp only
    | split


/-- C1 counterexample: with every override empty and no YAML document,
set-flag-config does fail with the error text "no configuration changes
specified", but only after issuing the application, flag and environment
lookups, so the rejection does not happen before any network call as the
claim states. -/
theorem C1_counterexample :
    setFlagConfigCmd okServer
      { auth := sampleAuth, flagName := "my-flag", environmentName := "production" } =
      (Except.error "no configuration changes specified",
       [NetCall.listApplications, NetCall.getFlagByName "app-1" "my-flag",
        NetCall.listEnvironments]) := rfl

/-- C1 (amended): for every invocation of set-flag-config whose merged
configuration mapping is empty and whose resolution succeeds, the
command fails with the "no configuration changes specified" error and
issues no mutating call; the rejection comes after the application, flag
and environment lookups, which are exactly the calls issued. -/
theorem C1_empty_merge_rejected_after_resolution (srv : Server) (inp : SetFlagConfigInputs)
    (app : Application) (flag : Flag) (envs : List Environment) (env : Environment)
    (hfn : inp.flagName ≠ "") (hen : inp.environmentName ≠ "")
    (hcc : newClientCheck inp.auth.token inp.auth.orgId = Except.ok ())
    (happ : getApplicationByName srv inp.auth.applicationName = Except.ok app)
    (hfl : srv.getFlagByNameResp app.id inp.flagName = Except.ok flag)
    (henvs : srv.listEnvironmentsResp = Except.ok envs)
    (henv : envs.find? (fun e => e.name == inp.environmentName) = some env)
    (hid : env.id ≠ "")
    (he : inp.enabled = "") (hdv : inp.defaultValue = "") (hv : inp.variantsEnabled = "")
    (hsp : inp.stickinessProperty = "")
    (hcf : inp.config = YamlInput.empty ∨ inp.config = YamlInput.parsed []) :
    setFlagConfigCmd srv inp =
      (Except.error "no configuration changes specified",
       [NetCall.listApplications, NetCall.getFlagByName app.id inp.flagName,
        NetCall.listEnvironments]) := by
  unfold setFlagConfigCmd
  rw [if_neg hfn, if_neg hen, hcc]
  dsimp only
  rw [happ]
  dsimp only
  rw [hfl]
  dsimp only
  rw [henvs]
  dsimp only
  rw [henv]
  dsimp only
  rw [if_neg hid]
  have hbuild : buildConfigChanges inp.config inp.enabled inp.defaultValue
      inp.variantsEnabled inp.stickinessProperty = Except.ok [] := by
    rw [he, hdv, hv, hsp]
    rcases hcf with h | h <;> rw [h] <;> rfl
  rw [hbuild]
  rfl

/-- C1 witness: the amended theorem at a concrete server and inputs. -/
theorem C1_empty_merge_rejected_after_resolution_witness :
    setFlagConfigCmd okServer
      { auth := sampleAuth, flagName := "my-flag", environmentName := "production" } =
      (Except.error "no configuration changes specified",
       [NetCall.listApplications, NetCall.getFlagByName sampleApp.id "my-flag",
        NetCall.listEnvironments]) :=
  C1_empty_merge_rejected_after_resolution okServer _ sampleApp sampleFlag [sampleEnv] sampleEnv
    (by decide) (by decide) rfl rfl rfl rfl rfl (by decide) rfl rfl rfl rfl (Or.inl rfl)

/-- C2 counterexample: a create-flag dry run against a server with no
applications, under an unresolvable application name, returns success
with an empty network trace: it neither performs application resolution
nor fails on the unresolvable name, contradicting the claim for
create-flag. -/
theorem C2_counterexample :
    createFlagCmd noAppServer
      { auth := { token := "tok", orgId := "org", applicationName := "ghost" },
        flagName := "new-flag", flagType := "Boolean", dryRun := true } =
      (Except.ok (CreateFlagResult.dryRunPreview "new-flag" "Boolean" "" ["true", "false"] false),
       []) := rfl

/-- C2 (amended): with dry-run set, set-flag-config and delete-flag
perform all name-to-ID resolution before returning success: an
unresolvable application, flag, or environment name still fails the dry
run with the corresponding lookup calls issued, and a successful dry run
carries the full resolution trace (application and flag for delete-flag;
application, flag and environment for set-flag-config); create-flag,
however, exits on dry-run before client creation and before any
resolution, returning success with no network call at all. -/
theorem C2_dry_run_resolution_split (srv : Server) (ci : CreateFlagInputs)
    (si : SetFlagConfigInputs) (di : DeleteFlagInputs)
    (hci : ci.dryRun = true) (hcf : ci.flagName ≠ "") (hct : ci.flagType ≠ "")
    (hsi : si.dryRun = true) (hsf : si.flagName ≠ "") (hse : si.environmentName ≠ "")
    (hsc : newClientCheck si.auth.token si.auth.orgId = Except.ok ())
    (hdi : di.dryRun = true) (hdf : di.flagName ≠ "")
    (hdc : newClientCheck di.auth.token di.auth.orgId = Except.ok ()) :
    createFlagCmd srv ci =
      (Except.ok (CreateFlagResult.dryRunPreview ci.flagName ci.flagType ci.description
        (resolveVariants ci.variants ci.flagType) ci.isPermanent), []) ∧
    (∀ e, getApplicationByName srv si.auth.applicationName = Except.error e →
      setFlagConfigCmd srv si =
        (Except.error ("failed to get application \'" ++ si.auth.applicationName ++ "\': " ++ e),
         [NetCall.listApplications])) ∧
    (∀ app e, getApplicationByName srv si.auth.applicationName = Except.ok app →
      srv.getFlagByNameResp app.id si.flagName = Except.error e →
      setFlagConfigCmd srv si =
        (Except.error ("failed to get flag \'" ++ si.flagName ++ "\': " ++ e),
         [NetCall.listApplications, NetCall.getFlagByName app.id si.flagName])) ∧
    (∀ app flag envs, getApplicationByName srv si.auth.applicationName = Except.ok app →
      srv.getFlagByNameResp app.id si.flagName = Except.ok flag →
      srv.listEnvironmentsResp = Except.ok envs →
      envs.find? (fun e => e.name == si.environmentName) = none →
      setFlagConfigCmd srv si =
        (Except.error ("environment \'" ++ si.environmentName ++ "\' not found"),
         [NetCall.listApplications, NetCall.getFlagByName app.id si.flagName,
          NetCall.listEnvironments])) ∧
    (∀ app flag envs env changes, getApplicationByName srv si.auth.applicationName = Except.ok app →
      srv.getFlagByNameResp app.id si.flagName = Except.ok flag →
      srv.listEnvironmentsResp = Except.ok envs →
      envs.find? (fun e => e.name == si.environmentName) = some env → env.id ≠ "" →
      buildConfigChanges si.config si.enabled si.defaultValue si.variantsEnabled
        si.stickinessProperty = Except.ok changes →
      changes.isEmpty = false →
      setFlagConfigCmd srv si =
        (Except.ok (SetFlagConfigResult.dryRunPreview si.flagName si.environmentName changes),
         [NetCall.listApplications, NetCall.getFlagByName app.id si.flagName,
          NetCall.listEnvironments])) ∧
    (∀ e, getApplicationByName srv di.auth.applicationName = Except.error e →
      deleteFlagCmd srv di =
        (Except.error ("failed to get application \'" ++ di.auth.applicationName ++ "\': " ++ e),
         [NetCall.listApplications])) ∧
    (∀ app e, getApplicationByName srv di.auth.applicationName = Except.ok app →
      srv.getFlagByNameResp app.id di.flagName = Except.error e →
      deleteFlagCmd srv di =
        (Except.error ("failed to find flag \'" ++ di.flagName ++ "\': " ++ e),
         [NetCall.listApplications, NetCall.getFlagByName app.id di.flagName])) ∧
    (∀ app flag, getApplicationByName srv di.auth.applicationName = Except.ok app →
      srv.getFlagByNameResp app.id di.flagName = Except.ok flag →
      deleteFlagCmd srv di =
        (Except.ok (DeleteFlagResult.dryRunPreview flag),
         [NetCall.listApplications, NetCall.getFlagByName app.id di.flagName])) := by
  refine ⟨?_, ?_, ?_, ?_, ?_, ?_, ?_, ?_⟩
  · unfold createFlagCmd
    rw [if_neg hcf, if_neg hct, hci]
    simp
  · intro e hsa
    unfold setFlagConfigCmd
    rw [if_neg hsf, if_neg hse, hsc]
    dsimp only
    rw [hsa]
  · intro app e happ hfl
    unfold setFlagConfigCmd
    rw [if_neg hsf, if_neg hse, hsc]
    dsimp only
    rw [happ]
    dsimp only
    rw [hfl]
  · intro app flag envs happ hfl henvs hfind
    unfold setFlagConfigCmd
    rw [if_neg hsf, if_neg hse, hsc]
    dsimp only
    rw [happ]
    dsimp only
    rw [hfl]
    dsimp only
    rw [henvs]
    dsimp only
    rw [hfind]
    dsimp only
    rw [if_pos rfl]
  · intro app flag envs env changes happ hfl henvs hfind hid hch hne
    unfold setFlagConfigCmd
    rw [if_neg hsf, if_neg hse, hsc]
    dsimp only
    rw [happ]
    dsimp only
    rw [hfl]
    dsimp only
    rw [henvs]
    dsimp only
    rw [hfind]
    dsimp only
    rw [if_neg hid, hch]
    dsimp only
    rw [hne]
    rw [if_neg (by simp : ¬(false = true))]
    rw [hsi]
    rw [if_pos rfl]
  · intro e hda
    unfold deleteFlagCmd
    rw [if_neg hdf, hdi]
    rw [if_neg (by simp : ¬((!di.confirm && !true) = true))]
    rw [hdc]
    dsimp only
    rw [hda]
  · intro app e happ hfl
    unfold deleteFlagCmd
    rw [if_neg hdf, hdi]
    rw [if_neg (by simp : ¬((!di.confirm && !true) = true))]
    rw [hdc]
    dsimp only
    rw [happ]
    dsimp only
    rw [hfl]
  · intro app flag happ hfl
    unfold deleteFlagCmd
    rw [if_neg hdf, hdi]
    rw [if_neg (by simp : ¬((!di.confirm && !true) = true))]
    rw [hdc]
    dsimp only
    rw [happ]
    dsimp only
    rw [hfl]
    dsimp only
    rw [if_pos rfl]

/-- C2 witness: a set-flag-config dry run against a server with no
applications fails on the unresolved name after the listing call, and a
delete-flag dry run on a resolving server succeeds carrying the
application and flag resolution calls. -/
theorem C2_dry_run_resolution_split_witness :
    setFlagConfigCmd noAppServer
      { auth := { token := "tok", orgId := "org", applicationName := "ghost" },
        flagName := "f", environmentName := "prod", dryRun := true } =
      (Except.error "failed to get application \'ghost\': application \'ghost\' not found",
       [NetCall.listApplications]) ∧
    deleteFlagCmd okServer { auth := sampleAuth, flagName := "my-flag", dryRun := true } =
      (Except.ok (DeleteFlagResult.dryRunPreview sampleFlag),
       [NetCall.listApplications, NetCall.getFlagByName sampleApp.id "my-flag"]) :=
  ⟨(C2_dry_run_resolution_split noAppServer
      { auth := { token := "tok", orgId := "org", applicationName := "ghost" },
        flagName := "nf", flagType := "Boolean", dryRun := true }
      { auth := { token := "tok", orgId := "org", applicationName := "ghost" },
        flagName := "f", environmentName := "prod", dryRun := true }
      { auth := { token := "tok", orgId := "org", applicationName := "ghost" },
        flagName := "f", dryRun := true }
      rfl (by decide) (by decide) rfl (by decide) (by decide) rfl rfl (by decide)
      rfl).2.1 "application \'ghost\' not found" rfl,
   (C2_dry_run_resolution_split okServer
      { auth := sampleAuth, flagName := "nf", flagType := "Boolean", dryRun := true }
      { auth := sampleAuth, flagName := "my-flag", environmentName := "production",
        enabled := "true", dryRun := true }
      { auth := sampleAuth, flagName := "my-flag", dryRun := true }
      rfl (by decide) (by decide) rfl (by decide) (by decide) rfl rfl (by decide)
      rfl).2.2.2.2.2.2.2 sampleApp sampleFlag rfl rfl⟩

/-- C3 counterexample: 204 is a 2xx status, yet the ListEnvironments
status check rejects it with the status-and-body error, contradicting
the claim that any 2xx response is accepted. -/
theorem C3_counterexample :
    isStatus2xx 204 = true ∧
    handleApiResponse ApiOp.listEnvironments { statusCode := 204, body := "ok" } =
      Except.error { status := 204, body := "ok" } := ⟨rfl, rfl⟩

/-- C3 (amended): each client operation accepts exactly status 200,
except that CreateFlag also accepts 201 and DeleteFlag also accepts 204;
any other response status, including every non-2xx status, yields an
error carrying the numeric status code and the raw body text. -/
theorem C3_status_acceptance (op : ApiOp) (resp : HttpResponse) :
    (acceptedStatus op resp.statusCode = true ↔
      (resp.statusCode = 200 ∨ (op = ApiOp.createFlag ∧ resp.statusCode = 201) ∨
        (op = ApiOp.deleteFlag ∧ resp.statusCode = 204))) ∧
    (acceptedStatus op resp.statusCode = false →
      handleApiResponse op resp =
        Except.error { status := resp.statusCode, body := resp.body }) ∧
    (isStatus2xx resp.statusCode = false →
      handleApiResponse op resp =
        Except.error { status := resp.statusCode, body := resp.body }) := by
  obtain ⟨s, b⟩ := resp
  refine ⟨?_, ?_, ?_⟩
  · cases op <;> simp [acceptedStatus]
  · intro h
    unfold handleApiResponse
    rw [h]
    rfl
  · intro h
    unfold handleApiResponse
    have : acceptedStatus op s = false := by
      cases op <;> simp_all [acceptedStatus, isStatus2xx] <;> omega
    rw [this]
    rfl

/-- C3 witness: a 404 response to ListEnvironments is rejected with its
status and body. -/
theorem C3_status_acceptance_witness :
    acceptedStatus ApiOp.listEnvironments 404 = false ∧
    handleApiResponse ApiOp.listEnvironments { statusCode := 404, body := "not found" } =
      Except.error { status := 404, body := "not found" } :=
  ⟨rfl, (C3_status_acceptance ApiOp.listEnvironments
    { statusCode := 404, body := "not found" }).2.1 rfl⟩

/-- C4: for every server and inputs, an invocation of create-flag,
set-flag-config or delete-flag with dry-run set issues no mutating
network call: every call in its trace is read-only. -/
theorem C4_dry_run_no_mutating_call (srv : Server) (ci : CreateFlagInputs)
    (si : SetFlagConfigInputs) (di : DeleteFlagInputs)
    (hc : ci.dryRun = true) (hs : si.dryRun = true) (hd : di.dryRun = true) :
    readOnlyTrace (createFlagCmd srv ci).2 ∧
    readOnlyTrace (setFlagConfigCmd srv si).2 ∧
    readOnlyTrace (deleteFlagCmd srv di).2 :=
  ⟨by rw [createFlag_dryRun_trace srv ci hc]; exact readOnly_nil,
   setFlagConfig_dryRun_readOnly srv si hs,
   deleteFlag_dryRun_readOnly srv di hd⟩

/-- C4 witness: the three dry runs at concrete inputs on a server where
every operation would succeed. -/
theorem C4_dry_run_no_mutating_call_witness :
    readOnlyTrace (createFlagCmd okServer
      { auth := sampleAuth, flagName := "nf", flagType := "Boolean", dryRun := true }).2 ∧
    readOnlyTrace (setFlagConfigCmd okServer
      { auth := sampleAuth, flagName := "my-flag", environmentName := "production",
        enabled := "true", dryRun := true }).2 ∧
    readOnlyTrace (deleteFlagCmd okServer
      { auth := sampleAuth, flagName := "my-flag", dryRun := true }).2 :=
  C4_dry_run_no_mutating_call okServer _ _ _ rfl rfl rfl

/-- C5: every delete-flag invocation with neither confirm nor dry-run
set fails validation with an empty network trace: not even the
application or flag resolution calls occur. -/
theorem C5_delete_unconfirmed_rejected_no_network (srv : Server) (inp : DeleteFlagInputs)
    (hc : inp.confirm = false) (hd : inp.dryRun = false) :
    (∃ e, (deleteFlagCmd srv inp).1 = Except.error e) ∧ (deleteFlagCmd srv inp).2 = [] := by
  unfold deleteFlagCmd
  rw [hc, hd]
  by_cases hf : inp.flagName = "" <;> simp [hf]

/-- C5 witness: the theorem at a concrete server and inputs. -/
theorem C5_delete_unconfirmed_rejected_no_network_witness :
    (∃ e, (deleteFlagCmd okServer
      { auth := sampleAuth, flagName := "my-flag" }).1 = Except.error e) ∧
    (deleteFlagCmd okServer { auth := sampleAuth, flagName := "my-flag" }).2 = [] :=
  C5_delete_unconfirmed_rejected_no_network okServer _ rfl rfl

/-- C6: in the merge of set-flag-config, every key supplied both by the
YAML document and as an individual override ends up with the override
value (each parsed override key maps to the override value in the merged
mapping, whatever the document said), and the concrete example of the
specification merges base enabled true, defaultValue "x" with override
enabled=false to enabled false, defaultValue "x". -/
theorem C6_override_wins_over_document (doc : ConfigMap) (enabled dv ve sp : String)
    (m : ConfigMap)
    (hm : buildConfigChanges (YamlInput.parsed doc) enabled dv ve sp = Except.ok m) :
    (∀ b, parseGoBool enabled = some b → mapGet m "enabled" = some (JsonVal.bool b)) ∧
    (dv ≠ "" → mapGet m "defaultValue" = some (parseDefaultValue dv)) ∧
    (∀ b, parseGoBool ve = some b → mapGet m "variantsEnabled" = some (JsonVal.bool b)) ∧
    (sp ≠ "" → mapGet m "stickinessProperty" = some (JsonVal.str sp)) ∧
    buildConfigChanges
        (YamlInput.parsed [("enabled", JsonVal.bool true), ("defaultValue", JsonVal.str "x")])
        "false" "" "" "" =
      Except.ok [("enabled", JsonVal.bool false), ("defaultValue", JsonVal.str "x")] := by
  obtain ⟨m0, m1, m3, h0, h1, h2, hm3⟩ := buildConfigChanges_ok _ _ _ _ _ _ hm
  subst hm3
  refine ⟨?_, ?_, ?_, ?_, rfl⟩
  · intro b hb
    rw [applyStickiness_get _ _ _ (by decide), applyVE_get _ _ _ _ (by decide) h2,
      applyDV_get _ _ _ (by decide)]
    exact applyEnabled_get_self _ _ _ _ hb h1
  · intro hdv
    rw [applyStickiness_get _ _ _ (by decide), applyVE_get _ _ _ _ (by decide) h2]
    unfold applyDefaultValueOverride
    rw [if_neg hdv]
    exact mapGet_mapInsert_self _ _ _
  · intro b hb
    rw [applyStickiness_get _ _ _ (by decide)]
    exact applyVE_get_self _ _ _ _ hb h2
  · intro hsp
    unfold applyStickinessOverride
    rw [if_neg hsp]
    exact mapGet_mapInsert_self _ _ _

/-- C6 witness: the specification example, read back from the merged
mapping. -/
theorem C6_override_wins_over_document_witness :
    mapGet [("enabled", JsonVal.bool false), ("defaultValue", JsonVal.str "x")] "enabled" =
      some (JsonVal.bool false) :=
  (C6_override_wins_over_document
    [("enabled", JsonVal.bool true), ("defaultValue", JsonVal.str "x")]
    "false" "" "" "" _ rfl).1 false rfl

/-- C7: every nonempty default-value override is parsed as JSON first,
with the literal text used as a string when that parse fails (a total
fallback), and the merged mapping holds the parsed value; concretely
"42" parses to the number 42, "true" to the boolean true, and "hello"
to the string "hello". -/
theorem C7_default_value_dual_parse (cfg : YamlInput) (enabled dv ve sp : String)
    (m : ConfigMap) (hdv : dv ≠ "")
    (hm : buildConfigChanges cfg enabled dv ve sp = Except.ok m) :
    mapGet m "defaultValue" = some (parseDefaultValue dv) ∧
    (∀ v, jsonParse dv = some v → parseDefaultValue dv = v) ∧
    (jsonParse dv = none → parseDefaultValue dv = JsonVal.str dv) ∧
    parseDefaultValue "42" = JsonVal.num 42 ∧
    parseDefaultValue "true" = JsonVal.bool true ∧
    parseDefaultValue "hello" = JsonVal.str "hello" := by
  obtain ⟨m0, m1, m3, h0, h1, h2, hm3⟩ := buildConfigChanges_ok _ _ _ _ _ _ hm
  subst hm3
  refine ⟨?_, ?_, ?_, rfl, rfl, rfl⟩
  · rw [applyStickiness_get _ _ _ (by decide), applyVE_get _ _ _ _ (by decide) h2]
    unfold applyDefaultValueOverride
    rw [if_neg hdv]
    exact mapGet_mapInsert_self _ _ _
  · intro v hv
    simp [parseDefaultValue, hv]
  · intro hv
    simp [parseDefaultValue, hv]

/-- C7 witness: the override "42" at a concrete merge. -/
theorem C7_default_value_dual_parse_witness :
    mapGet [("defaultValue", JsonVal.num 42)] "defaultValue" = some (parseDefaultValue "42") ∧
    parseDefaultValue "42" = JsonVal.num 42 :=
  ⟨(C7_default_value_dual_parse YamlInput.empty "" "42" "" "" _ (by decide) rfl).1,
   (C7_default_value_dual_parse YamlInput.empty "" "42" "" "" _ (by decide) rfl).2.2.2.1⟩

/-- C8: every create-flag invocation with no variants input uses the
per-type defaults (shown on the dry-run preview, and equal to
defaultVariants for every flag type), and the defaults are: Boolean
gives true and false, String gives option1 and option2, Number gives 0
and 1. -/
theorem C8_variant_defaults_by_type (srv : Server) (inp : CreateFlagInputs)
    (hv : inp.variants = VariantsInput.empty) (hd : inp.dryRun = true)
    (hf : inp.flagName ≠ "") (ht : inp.flagType ≠ "") :
    (createFlagCmd srv inp).1 =
      Except.ok (CreateFlagResult.dryRunPreview inp.flagName inp.flagType inp.description
        (defaultVariants inp.flagType) inp.isPermanent) ∧
    (∀ ft, resolveVariants VariantsInput.empty ft = defaultVariants ft) ∧
    defaultVariants "Boolean" = ["true", "false"] ∧
    defaultVariants "String" = ["option1", "option2"] ∧
    defaultVariants "Number" = ["0", "1"] := by
  refine ⟨?_, fun ft => rfl, rfl, rfl, rfl⟩
  unfold createFlagCmd
  rw [if_neg hf, if_neg ht, hv, hd]
  simp [resolveVariants]

/-- C8 witness: a concrete boolean create-flag invocation without
variants. -/
theorem C8_variant_defaults_by_type_witness :
    (createFlagCmd noAppServer
      { auth := sampleAuth, flagName := "nf", flagType := "Boolean", dryRun := true }).1 =
      Except.ok (CreateFlagResult.dryRunPreview "nf" "Boolean" ""
        (defaultVariants "Boolean") false) ∧
    defaultVariants "Boolean" = ["true", "false"] :=
  ⟨(C8_variant_defaults_by_type noAppServer _ rfl rfl (by decide) (by decide)).1,
   (C8_variant_defaults_by_type noAppServer
     { auth := sampleAuth, flagName := "nf", flagType := "Boolean", dryRun := true }
     rfl rfl (by decide) (by decide)).2.2.1⟩

/-- C9: application resolution fetches the full application list and
scans it linearly for an exact (case-sensitive) name match, returning
the first match; with zero matches it fails with an error that spells
the entity kind and embeds the searched name. -/
theorem C9_application_resolution (srv : Server) (name : String) (apps : List Application)
    (hls : srv.listApplicationsResp = Except.ok apps) :
    ((∀ a ∈ apps, a.name ≠ name) →
      getApplicationByName srv name = Except.error ("application \'" ++ name ++ "\' not found")) ∧
    (∀ pre a post, apps = pre ++ a :: post → (∀ b ∈ pre, b.name ≠ name) → a.name = name →
      getApplicationByName srv name = Except.ok a) ∧
    (∃ p q, ("application \'" ++ name ++ "\' not found") = p ++ name ++ q) := by
  refine ⟨?_, ?_, ⟨"application \'", "\' not found", rfl⟩⟩
  · intro h
    unfold getApplicationByName
    rw [hls]
    dsimp only
    have : apps.find? (fun a => a.name == name) = none := by
      rw [List.find?_eq_none]
      intro x hx
      simpa using h x hx
    rw [this]
  · intro pre a post happs hpre ha
    unfold getApplicationByName
    rw [hls, happs]
    dsimp only
    rw [find?_first (fun a => a.name == name) pre a post
      (fun b hb => by simpa using hpre b hb) (by simpa using ha)]

/-- C9 witness: the lookup is case-sensitive (searching my-app misses
My-App) and returns the first of two applications sharing a name. -/
theorem C9_application_resolution_witness :
    getApplicationByName caseServer "my-app" =
      Except.error "application \'my-app\' not found" ∧
    getApplicationByName caseServer "My-App" = Except.ok { id := "a1", name := "My-App" } :=
  ⟨(C9_application_resolution caseServer "my-app" _ rfl).1 (by decide),
   (C9_application_resolution caseServer "My-App" _ rfl).2.1 []
     { id := "a1", name := "My-App" } [{ id := "a2", name := "My-App" }] rfl
     (by simp) rfl⟩

/-- C10: the flag-type match of variant defaulting is case-insensitive
in general (any two spellings with the same lowercasing yield the same
default variants), and every flag type whose lowercasing is none of
boolean, string, number silently defaults the variants to true and
false instead of failing; concrete instances spell it out for the three
cases of boolean and for an unknown type. -/
theorem C10_flag_type_case_insensitive_defaulting :
    (∀ ft1 ft2, goToLower ft1 = goToLower ft2 → defaultVariants ft1 = defaultVariants ft2) ∧
    (∀ ft, goToLower ft ≠ "boolean" → goToLower ft ≠ "string" → goToLower ft ≠ "number" →
      resolveVariants VariantsInput.empty ft = ["true", "false"]) ∧
    resolveVariants VariantsInput.empty "boolean" = ["true", "false"] ∧
    resolveVariants VariantsInput.empty "Boolean" = ["true", "false"] ∧
    resolveVariants VariantsInput.empty "BOOLEAN" = ["true", "false"] ∧
    resolveVariants VariantsInput.empty "Percentage" = ["true", "false"] ∧
    resolveVariants VariantsInput.empty "NUMBER" = ["0", "1"] ∧
    resolveVariants VariantsInput.empty "STRING" = ["option1", "option2"] := by
  refine ⟨?_, ?_, rfl, rfl, rfl, rfl, rfl, rfl⟩
  · intro ft1 ft2 h
    unfold defaultVariants
    rw [h]
  · intro ft h1 h2 h3
    unfold resolveVariants defaultVariants
    split <;> simp_all

/-- C10 witness: the theorem applied to a mixed-case spelling and to an
unknown flag type. -/
theorem C10_flag_type_case_insensitive_defaulting_witness :
    defaultVariants "bOoLeAn" = defaultVariants "BOOLEAN" ∧
    resolveVariants VariantsInput.empty "Percentage2" = ["true", "false"] :=
  ⟨C10_flag_type_case_insensitive_defaulting.1 "bOoLeAn" "BOOLEAN" (by decide),
   C10_flag_type_case_insensitive_defaulting.2.1 "Percentage2"
     (by decide) (by decide) (by decide)⟩

end Cloudbees
